import Mathlib

/-!
Verification of the session, allocator and error-translation core of the
Mitsubishi CNC M700 EZSocket client (`m700.py`).

The Python class `M700` is shallowly embedded: its mutable state (the shared
unit-number table, the per-session `__isopen` flag, `__unitno` and address)
becomes an explicit `World` record, every method becomes a pure function from
a `World` (plus the status codes the remote endpoint would return, supplied as
oracle arguments) to a new `World`, an optional raised exception, and the list
of endpoint calls issued.  Status codes are signed integers, exactly as the
COM layer hands them to Python.
-/

namespace M700

set_option maxRecDepth 100000

/-- Endpoint calls a method can issue, recorded so that theorems can speak
about which remote calls were made (handshakes, offset writes, device setup). -/
inductive Call where
  | setTCPIPProtocol
  | open2
  | toolSetOffset (kind : Int)
  | deviceSetDevice
deriving DecidableEq

/-- Exceptions the embedded methods can raise: `remote` is the
`Exception('Error=(IP:...) 0x...: msg')` built by `__raise_error`,
`resourceExhausted` the allocator's plain `Exception`, and `nameError` the
Python `NameError` produced by evaluating an unbound identifier. -/
inductive PyErr where
  | remote (ip : String) (hexCode : String) (msg : String)
  | resourceExhausted (msg : String)
  | nameError (name : String)
deriving DecidableEq

/-- The test `if errcd == 0 or errcd >= 1` that opens `__raise_error`:
`true` means the status code is treated as success (0) or informational
(strictly positive) and nothing is raised. -/
def raise_ok (errcd : Int) : Bool :=
  decide (errcd = 0 ∨ 1 ≤ errcd)

/-- Python's `'0x' + format(errcd & 0xffffffff, 'x')`: the code reduced
modulo 2^32 (two's-complement view of the signed 32-bit status), rendered in
lowercase hexadecimal with no padding.  `Int.emod` by a positive modulus is
nonnegative, matching Python's `&`. -/
def pyHex32 (errcd : Int) : String :=
  "0x" ++ String.mk (Nat.toDigits 16 (errcd % 4294967296).toNat)

/-- The fixed error table of M700.__raise_error, transcribed entry for entry
from the source (keys are lowercase hex strings, values the messages). -/
def errmap : List (String × String) := [
  ("0x80a00101", "Communication line not open"),
  ("0x80a00104", "Double Open Error"),
  ("0x80a00105", "Incorrect data type of argument"),
  ("0x80a00106", "Invalid data range of argument"),
  ("0x80a00107", "Not Supported"),
  ("0x80a00109", "Can't open communication line"),
  ("0x80a0010a", "The argument is a null pointer."),
  ("0x80a0010b", "Invalid data for argument"),
  ("0x80a0010c", "COMM port handle error"),
  ("0x80b00101", "Cannot reserve memory"),
  ("0x80b00102", "EZSocketPc error can not be obtained"),
  ("0x80b00201", "Incorrect mode"),
  ("0x80b00202", "Open file not open"),
  ("0x80b00203", "File already exists"),
  ("0x80b00204", "already open file"),
  ("0x80b00205", "Can't create temporary file"),
  ("0x80b00206", "File is not open in write mode"),
  ("0x80b00207", "Incorrect write data size"),
  ("0x80b00208", "cannot write"),
  ("0x80b00209", "File not opened in read mode"),
  ("0x80b0020a", "unreadable state"),
  ("0x80b0020b", "Can't create temporary file"),
  ("0x80b0020c", "File does not exist (read mode)"),
  ("0x80b0020d", "Can't open file"),
  ("0x80b0020e", "Invalid file path"),
  ("0x80b0020f", "The read file is invalid"),
  ("0x80b00210", "Invalid write file"),
  ("0x80b00301", "Incorrect host name when connecting locally due to automation call"),
  ("0x80b00302", "TCP / IP communication is not set"),
  ("0x80b00303", "Cannot set because you are already communicating"),
  ("0x80b00304", "There is no lower module"),
  ("0x80b00305", "Can not create EZSocketPc object"),
  ("0x80b00401", "Data does not exist"),
  ("0x80b00402", "Data duplication"),
  ("0x80b00501", "No parameter information file"),
  ("0x80020190", "NC card number incorrect"),
  ("0x80020102", "The device has not been opened"),
  ("0x80020132", "Invalid Command"),
  ("0x80020133", "Invalid communication parameter data range"),
  ("0x80030143", "There is a problem with the file system"),
  ("0x80030191", "The directory does not exist"),
  ("0x8003019b", "The drive does not exist"),
  ("0x800301a2", "Directory does not exist"),
  ("0x800301a8", "The drive does not exist"),
  ("0x80050d90", "Invalid system / axis specification"),
  ("0x80050d02", "Incorrect alarm type"),
  ("0x80050d03", "Error in communication data between NC and PC"),
  ("0x80041194", "Incorrect specification of life management data type"),
  ("0x80041195", "Setting data range over"),
  ("0x80041196", "Setting tool number mismatch"),
  ("0x80041197", "Specified tool number out of specification"),
  ("0x80040190", "Invalid system / axis specification"),
  ("0x80040191", "Blank number incorrect"),
  ("0x80040192", "Incorrect Subdivision Number"),
  ("0x80040196", "I can not fit into the buffer prepared by the application"),
  ("0x80040197", "Invalid data type"),
  ("0x8004019d", "The data can not be read"),
  ("0x8004019f", "write only data"),
  ("0x800401a0", "axis specification invalid"),
  ("0x800401a1", "Data number invalid"),
  ("0x800401a3", "No read data"),
  ("0x8004019a", "Invalid read data range"),
  ("0x80040290", "Invalid system / axis specification"),
  ("0x80040291", "Blank number incorrect"),
  ("0x80040292", "Incorrect Subdivision Number"),
  ("0x80040296", "I can not fit into the buffer prepared by the application"),
  ("0x80040297", "Incorrect data type"),
  ("0x8004029b", "Read only data"),
  ("0x8004029e", "Data can not be written"),
  ("0x800402a0", "axis specification invalid"),
  ("0x8004024d", "Secure Password Locked"),
  ("0x800402a2", "Format aborted due to invalid SRAM open parameter"),
  ("0x800402a4", "Can't register edit file (already editing)"),
  ("0x800402a5", "Can't release edit file"),
  ("0x800402a3", "No data to write to"),
  ("0x8004029a", "Invalid write data range"),
  ("0x800402a6", "Security Password not set"),
  ("0x800402a7", "Safety Data Integrity Check Error"),
  ("0x800402a9", "No data type for safety"),
  ("0x800402a8", "Can not write in tool data sort"),
  ("0x80040501", "High-speed readout not registered"),
  ("0x80040402", "priority specified incorrectly"),
  ("0x80040401", "The number of registrations has been exceeded"),
  ("0x80040490", "Incorrect Address"),
  ("0x80040491", "Blank number incorrect"),
  ("0x80040492", "Incorrect Subdivision Number"),
  ("0x80040497", "Incorrect data type"),
  ("0x8004049b", "Read only data"),
  ("0x8004049d", "The data can not be read"),
  ("0x8004049f", "write only data"),
  ("0x800404a0", "Axis specification invalid"),
  ("0x80040ba3", "No rethreading position set"),
  ("0x80030101", "Another directory is already open"),
  ("0x80030103", "Data size over"),
  ("0x80030148", "Long file name"),
  ("0x80030198", "Invalid file name format"),
  ("0x80030190", "Not Opened"),
  ("0x80030194", "File information read error"),
  ("0x80030102", "Another directory has already been opened (PC only)"),
  ("0x800301a0", "not open"),
  ("0x800301a1", "File does not exist"),
  ("0x800301a5", "File information read error"),
  ("0x80030447", "Can not copy (during operation)"),
  ("0x80030403", "Over registration number"),
  ("0x80030401", "The destination file already exists"),
  ("0x80030443", "There is a problem with the file system"),
  ("0x80030448", "Long file name"),
  ("0x80030498", "Invalid file name format"),
  ("0x80030404", "Memory capacity over"),
  ("0x80030491", "Directory does not exist"),
  ("0x8003049b", "The drive does not exist"),
  ("0x80030442", "File does not exist"),
  ("0x80030446", "Can not copy (PLC in operation)"),
  ("0x80030494", "The transfer source file can not be read"),
  ("0x80030495", "Can not write to destination file"),
  ("0x8003044a", "Can not copy (protect)"),
  ("0x80030405", "Verification error"),
  ("0x80030449", "does not support the matching feature"),
  ("0x8003044c", "Copying files"),
  ("0x80030490", "file not open"),
  ("0x8003044d", "Secure Password Locked"),
  ("0x8003049d", "Invalid file format"),
  ("0x8003049e", "The password is different"),
  ("0x800304a4", "File can not be created (PC only)"),
  ("0x800304a3", "Can't open file (PC only)"),
  ("0x80030402", "The destination file already exists"),
  ("0x800304a7", "Invalid file name format"),
  ("0x800304a2", "Directory does not exist"),
  ("0x800304a8", "The drive does not exist"),
  ("0x800304a1", "File does not exist"),
  ("0x800304a5", "The transfer source file can not be read"),
  ("0x800304a6", "Can not write to destination file"),
  ("0x80030406", "Disk capacity over"),
  ("0x800304a0", "file not open"),
  ("0x80030201", "Can't delete files"),
  ("0x80030242", "File does not exist"),
  ("0x80030243", "There is a problem with the file system"),
  ("0x80030247", "Can not delete (during operation)"),
  ("0x80030248", "long file name"),
  ("0x8003024a", "The file can not be deleted (protected)"),
  ("0x80030291", "Directory does not exist"),
  ("0x80030298", "Invalid file name format"),
  ("0x8003029b", "The drive does not exist"),
  ("0x80030202", "Can't delete files"),
  ("0x800302a7", "Invalid file name format"),
  ("0x800302a2", "Directory does not exist"),
  ("0x800302a8", "The drive does not exist"),
  ("0x800302a1", "File does not exist"),
  ("0x80030301", "New file name already exists"),
  ("0x80030342", "File does not exist"),
  ("0x80030343", "There is a problem with the file system"),
  ("0x80030347", "Can not rename (during operation)"),
  ("0x80030348", "Long file name"),
  ("0x8003034a", "Can not rename (Protect)"),
  ("0x80030391", "The directory does not exist"),
  ("0x80030398", "Invalid file name format"),
  ("0x8003039b", "The drive does not exist"),
  ("0x80030303", "Can't rename"),
  ("0x80030305", "The new and old file names are the same"),
  ("0x80030302", "New file name already exists"),
  ("0x800303a7", "Invalid file name format"),
  ("0x800303a2", "The directory does not exist"),
  ("0x800303a8", "The drive does not exist"),
  ("0x800303a1", "File does not exist"),
  ("0x80030691", "The directory does not exist"),
  ("0x8003069b", "The drive does not exist"),
  ("0x80030643", "There is a problem with the file system"),
  ("0x80030648", "Long file name or incorrect format"),
  ("0x800306a2", "Directory does not exist (PC only)"),
  ("0x800306a8", "Drive does not exist (PC only)"),
  ("0x80030701", "I can not fit into the buffer prepared by the application"),
  ("0x80030794", "Drive information read error"),
  ("0x82020001", "already open"),
  ("0x82020002", "Not Opened"),
  ("0x82020004", "card does not exist"),
  ("0x82020006", "Invalid Channel Number"),
  ("0x82020007", "The file descriptor is invalid"),
  ("0x8202000a", "Not Connected"),
  ("0x8202000b", "not closed"),
  ("0x82020014", "timeout"),
  ("0x82020015", "Invalid data"),
  ("0x82020016", "Canceled due to cancel request"),
  ("0x82020017", "Incorrect packet size"),
  ("0x82020018", "Ended by task end"),
  ("0x82020032", "The command is invalid"),
  ("0x82020033", "Incorrect setting data"),
  ("0x80060001", "Data read cache disabled"),
  ("0x80060090", "Incorrect Address"),
  ("0x80060091", "Blank number incorrect"),
  ("0x80060092", "Incorrect Subdivision Number"),
  ("0x80060097", "Incorrect data type"),
  ("0x8006009a", "Invalid data range"),
  ("0x8006009d", "The data can not be read"),
  ("0x8006009f", "Incorrect data type"),
  ("0x800600a0", "axis specification invalid"),
  ("0x80070140", "Can't reserve work area"),
  ("0x80070142", "Can't open file"),
  ("0x80070147", "The file can not be opened (during operation)"),
  ("0x80070148", "long file path"),
  ("0x80070149", "Not supported (CF not supported)"),
  ("0x80070192", "already open"),
  ("0x80070199", "The maximum number of open files has been exceeded"),
  ("0x8007019f", "Can not open during tool data sorting"),
  ("0x800701b0", "Security password not certified"),
  ("0x80070290", "File not open"),
  ("0x80070340", "Can't reserve work area"),
  ("0x80070347", "File can not be created (during operation)"),
  ("0x80070348", "long file path"),
  ("0x80070349", "Not supported (CF not supported)"),
  ("0x80070392", "Already generated"),
  ("0x80070393", "Can't create file"),
  ("0x80070399", "The maximum number of open files has been exceeded"),
  ("0x8007039b", "The drive does not exist"),
  ("0x80070490", "file not open"),
  ("0x80070494", "File information read error"),
  ("0x80070549", "Not writable"),
  ("0x80070590", "File not open"),
  ("0x80070595", "File write error"),
  ("0x80070740", "File Delete Error"),
  ("0x80070742", "File does not exist 3-6"),
  ("0x80070747", "The file can not be deleted (during operation)"),
  ("0x80070748", "long file path"),
  ("0x80070749", "Not supported (CF not supported)"),
  ("0x80070792", "file is open"),
  ("0x8007079b", "The drive does not exist"),
  ("0x80070842", "File does not exist"),
  ("0x80070843", "File that can not be renamed"),
  ("0x80070848", "long file path"),
  ("0x80070849", "Not supported (CF not supported)"),
  ("0x80070892", "The file is open"),
  ("0x80070899", "The maximum number of open files has been exceeded"),
  ("0x8007089b", "The drive does not exist"),
  ("0x80070944", "Invalid command (not supported)"),
  ("0x80070990", "Not Opened"),
  ("0x80070994", "Read error"),
  ("0x80070995", "Write Error"),
  ("0x80070996", "I can not fit into the buffer prepared by the application"),
  ("0x80070997", "Invalid data type"),
  ("0x80070949", "Not supported (CF not supported)"),
  ("0x80070a40", "Can't reserve work area"),
  ("0x80070a47", "The directory can not be opened (during operation)"),
  ("0x80070a48", "long file path"),
  ("0x80070a49", "Not supported (CF not supported)"),
  ("0x80070a91", "Directory does not exist"),
  ("0x80070a92", "already open"),
  ("0x80070a99", "The maximum number of open directories has been exceeded"),
  ("0x80070a9b", "The drive does not exist"),
  ("0x80070b90", "The directory has not been opened"),
  ("0x80070b91", "Directory does not exist"),
  ("0x80070b96", "I can not fit into the buffer prepared by the application"),
  ("0x80070d90", "The directory has not been opened"),
  ("0x80070e48", "long file path"),
  ("0x80070e49", "Supported (CF not supported)"),
  ("0x80070e94", "Error reading file information"),
  ("0x80070e99", "The maximum number of open files has been exceeded"),
  ("0x80070e9b", "The drive does not exist"),
  ("0x80070f48", "long file path"),
  ("0x80070f49", "Not supported (CF not supported)"),
  ("0x80070f94", "Error reading file information"),
  ("0x80070f90", "The file has not been opened"),
  ("0x80070f9b", "The drive does not exist"),
  ("0x8007099c", "Sorry, open format invalid and abort format"),
  ("0xf00000ff", "Invalid argument"),
  ("0xffffffff", "data can not be read / written")
]

/-- The mutable state the claims touch: the session's address (`__ip`,
`__port`), the process-wide 255-slot unit-number table (`__uno_list`), the
session's `__isopen` flag and its `__unitno` attribute (`none` models the
attribute not having been assigned yet). -/
structure World where
  ip : String
  port : String
  uno_list : List Bool
  isopen : Bool
  unitno : Option Nat
deriving DecidableEq

/-- `M700.alloc_unitno`: scan `__uno_list` in ascending order; at the first
`False` slot mark it `True` and return its 1-based index together with the
updated list; `none` models the `raise Exception(...)` when every slot is
used. -/
def alloc_unitno : List Bool → Option (Nat × List Bool)
  | [] => none
  | false :: rest => some (1, true :: rest)
  | true :: rest =>
    match alloc_unitno rest with
    | some (u, rest') => some (u + 1, true :: rest')
    | none => none

/-- `M700.release_unitno`: `__uno_list[uno-1] = False` (callers pass unit
numbers 1..255, the values `alloc_unitno` hands out). -/
def release_unitno (l : List Bool) (uno : Nat) : List Bool :=
  l.set (uno - 1) false

/-- `alloc_unitno` iterated `n` times, dropping the returned numbers: used to
state that a full cycle of 255 allocations succeeds and leaves every slot
used. -/
def allocSeq : Nat → List Bool → Option (List Bool)
  | 0, l => some l
  | n + 1, l =>
    match alloc_unitno l with
    | some (_, l') => allocSeq n l'
    | none => none

/-- `M700.close`: releases the unit number, clears `__isopen`, then tries to
close and release the COM handle swallowing every failure.  When `__unitno`
was never assigned, `M700.release_unitno(self.__unitno)` raises inside the
first `try` before `__isopen = False` runs, and the `except: pass` swallows
it, so the state is unchanged. -/
def close (w : World) : World :=
  match w.unitno with
  | some u => { w with uno_list := release_unitno w.uno_list u, isopen := false }
  | none => w


/-- `M700.__raise_error`: status 0 or positive returns silently; a negative
status is rendered via `pyHex32`, looked up in `errmap` with default
"Unkown error" (the source's literal spelling), the two connection-lost codes
first drive `close`, and the built `Exception` (address, hex code, message)
is raised. -/
def raise_error (w : World) (errcd : Int) : World × Option PyErr :=
  if raise_ok errcd = true then (w, none)
  else
    let hex_str := pyHex32 errcd
    let msg := (List.lookup hex_str errmap).getD "Unkown error"
    let w' := if hex_str = "0x80a00101" ∨ hex_str = "0x8202000a" then close w else w
    (w', some (PyErr.remote w.ip hex_str msg))

/-- The status codes the two handshake calls of `__open` would return, an
oracle for the external endpoint. -/
structure OpenEnv where
  setTcpStatus : Int
  open2Status : Int

/-- `M700.__open` (named `open_conn`: `open` is a Lean keyword).  If already
open, nothing happens.  Otherwise: dispatch the COM object, call
`SetTCPIPProtocol` (status from the oracle), assign `__unitno` from
`alloc_unitno` (which may raise), only then pass the first status through
`__raise_error`, call `Open2`, pass its status through `__raise_error`, and
set `__isopen`. -/
def open_conn (w : World) (env : OpenEnv) : World × Option PyErr × List Call :=
  if w.isopen then (w, none, [])
  else
    let calls1 : List Call := [Call.setTCPIPProtocol]
    let errcd := env.setTcpStatus
    match alloc_unitno w.uno_list with
    | none =>
      (w, some (PyErr.resourceExhausted
        "Unit number exceeds 255. Too many simultaneous connections"), calls1)
    | some (u, l') =>
      let w1 : World := { w with uno_list := l', unitno := some u }
      match raise_error w1 errcd with
      | (w2, some e) => (w2, some e, calls1)
      | (w2, none) =>
        let calls2 := calls1 ++ [Call.open2]
        match raise_error w2 env.open2Status with
        | (w3, some e) => (w3, some e, calls2)
        | (w3, none) => ({ w3 with isopen := true }, none, calls2)

/-- `M700.set_tool_offset_h`: after `__open`, `Tool_SetOffset(4, 0,
toolset_no, h, 0)` writes the length compensation; its status goes through
`__raise_error`.  The next statement is `Tool_SetOffset(4, 2, toolset_no, d,
0)`, but `d` is not bound anywhere in the function, so evaluating the
argument raises `NameError` before that second call is dispatched. -/
def set_tool_offset_h (w : World) (env : OpenEnv) (st1 : Int) :
    World × Option PyErr × List Call :=
  match open_conn w env with
  | (w', some e, cs) => (w', some e, cs)
  | (w', none, cs) =>
    let cs := cs ++ [Call.toolSetOffset 0]
    match raise_error w' st1 with
    | (w'', some e) => (w'', some e, cs)
    | (w'', none) => (w'', some (PyErr.nameError "d"), cs)

/-- The `Device_SetDevice` argument triple `__setting_dev` builds: the device
string, the `data_type` it chose, and the value array's single element. -/
structure DevCall where
  dev : String
  data_type : Nat
  value : Int
deriving DecidableEq

/-- `M700.__setting_dev`: `data_type` starts at 0, becomes 1 for a device
whose first character is M and 4 for D; for any other first character the
source evaluates `Exception('Set M device or D device.')` as a bare
expression without `raise`, so execution continues with `data_type = 0` and
`Device_SetDevice` is issued anyway (its status, from the oracle, then goes
through `__raise_error`). -/
def setting_dev (w : World) (dev : String) (data : Int) (setStatus : Int) :
    World × Option PyErr × DevCall :=
  let data_type : Nat := if dev.front = 'M' then 1 else if dev.front = 'D' then 4 else 0
  let call : DevCall := { dev := dev, data_type := data_type, value := data }
  match raise_error w setStatus with
  | (w', r) => (w', r, call)

/-- How the read loop of `read_file` ended: a chunk shorter than 256 bytes
(`done`), a status that `__raise_error` turns into an exception (`errored`),
the open call itself failing (`openFailed`), or the modelled response stream
running out (`exhausted`, an artifact of supplying finitely many oracle
responses). -/
inductive ReadEnd where
  | done
  | errored (code : Int)
  | openFailed (code : Int)
  | exhausted
deriving DecidableEq

/-- The `while True` loop of `M700.read_file` over the successive
`File_ReadFile2(256)` responses (status code, byte chunk — bytes as `Nat`s):
each status goes through `__raise_error`, the chunk is appended to the
result, and the loop breaks at the first chunk of fewer than 256 bytes. -/
def readLoop : List (Int × List Nat) → List Nat × ReadEnd
  | [] => ([], .exhausted)
  | (e, d) :: rest =>
    if raise_ok e = true then
      if d.length < 256 then (d, .done)
      else
        let r := readLoop rest
        (d ++ r.1, r.2)
    else ([], .errored e)

/-- `M700.read_file`: `File_OpenFile3(path, READ)` (status from the oracle),
then the read loop, and in the `finally` block an unconditional
`File_CloseFile2()` attempt whose failure (`closeFails`) is swallowed by
`except: pass`.  The second component records that the close was attempted,
which holds on every path. -/
def read_file (openStatus : Int) (chunks : List (Int × List Nat))
    (closeFails : Bool) : (List Nat × ReadEnd) × Bool :=
  if raise_ok openStatus = true then (readLoop chunks, true)
  else (([], ReadEnd.openFailed openStatus), true)

/-- How one enumeration pass of `find_dir` ended: `normal code` for a break
at a status ≤ 1, `error code` for a status that `__raise_error` raises on,
`exhausted` when the modelled response stream ran out. -/
inductive PassEnd where
  | normal (code : Int)
  | error (code : Int)
  | exhausted
deriving DecidableEq

/-- The `while True` loop shared by both passes of `M700.find_dir`, driven by
the response just received (`errcd`, `info`) and the stream of
`File_FindNextDir2` responses still to come.  While `errcd > 1` the entry is
appended (the parsing of `info` into a folder/file record is kept abstract:
the raw `info` string stands for the appended entry) and the next response is
fetched and passed through `__raise_error`; otherwise the loop breaks with
the current code. -/
def dirLoop (errcd : Int) (info : String) :
    List (Int × String) → List String × PassEnd
  | [] =>
    if 1 < errcd then ([info], .exhausted) else ([], .normal errcd)
  | (e', i') :: rest =>
    if 1 < errcd then
      if raise_ok e' = true then
        let r := dirLoop e' i' rest
        (info :: r.1, r.2)
      else ([info], .error e')
    else ([], .normal errcd)

/-- One pass of `find_dir`: the `File_FindDir2` response goes through
`__raise_error` first, then feeds `dirLoop`. -/
def dirPass (first : Int × String) (rest : List (Int × String)) :
    List String × PassEnd :=
  if raise_ok first.1 = true then dirLoop first.1 first.2 rest
  else ([], .error first.1)

/-- Python's `str.replace` for a non-empty pattern (the only use in the
source is the pattern "M01"): scan left to right, replace each non-overlapping
occurrence.  The fuel argument is the length of the scanned list, enough
because every step consumes at least one character. -/
def replaceFuel (pat rep : List Char) : Nat → List Char → List Char
  | 0, s => s
  | _ + 1, [] => []
  | fuel + 1, c :: cs =>
    if List.isPrefixOf pat (c :: cs) then
      rep ++ replaceFuel pat rep fuel (List.drop pat.length (c :: cs))
    else c :: replaceFuel pat rep fuel cs

/-- `path.replace(pat, rep)` on strings, via `replaceFuel`. -/
def pyReplace (s pat rep : String) : String :=
  String.mk (replaceFuel pat.data rep.data s.data.length s.data)

/-- Python's `format(n, ' 02X')` for `n ≥ 0` — the format specification that
actually appears in the source line `"M {: 02X}".format(self.__unitno)` (with
its stray spaces): sign option space, sign-aware zero fill to width 2,
uppercase hex.  The space sign character counts toward the width, so for any
`n` the result is a space followed by the bare uppercase hex digits. -/
def pyFormatSp02X (n : Nat) : String :=
  let digits := (Nat.toDigits 16 n).map Char.toUpper
  String.mk (' ' :: (List.replicate (2 - (1 + digits.length)) '0' ++ digits))

/-- The path substitution `find_dir` performs before its first remote call:
`path.replace("M01", "M {: 02X}".format(self.__unitno))`, i.e. the template
is the literal "M", a space, then the formatted unit number. -/
def find_dir_subst (path : String) (unitno : Nat) : String :=
  pyReplace path "M01" ("M " ++ pyFormatSp02X unitno)

/-- Modelled from the spec's words, for comparison with `find_dir_subst`: the
placeholder replaced by "M" followed by the unit number as zero-padded
two-digit uppercase hexadecimal (unit 1 yields "M01", unit 26 yields "M1A"). -/
def find_dir_subst_spec (path : String) (unitno : Nat) : String :=
  let digits := (Nat.toDigits 16 unitno).map Char.toUpper
  pyReplace path "M01"
    ("M" ++ String.mk (List.replicate (2 - digits.length) '0' ++ digits))

/-! ## Theorems -/

/-- Helper: `l.set n a = l` when slot `n` already holds `a`. -/
theorem list_set_get_eq {α : Type} : ∀ (l : List α) (n : Nat) (a : α),
    l.get? n = some a → l.set n a = l := by
  intro l
  induction l with
  | nil => intro n a h; simp at h
  | cons b rest ih =>
    intro n a h
    cases n with
    | zero =>
      rw [List.get?_cons_zero] at h
      injection h with hba
      subst hba
      rfl
    | succ m =>
      rw [List.get?_cons_succ] at h
      show b :: rest.set m a = b :: rest
      rw [ih m a h]

/-- Helper: soundness of the linear scan of `alloc_unitno` — the returned
number is 1-based, its slot was free, every earlier slot was used, and the
returned list marks exactly that slot. -/
theorem alloc_unitno_sound : ∀ (l : List Bool) (u : Nat) (l' : List Bool),
    alloc_unitno l = some (u, l') →
    1 ≤ u ∧ l.get? (u - 1) = some false
      ∧ (∀ j, j < u - 1 → l.get? j = some true)
      ∧ l' = l.set (u - 1) true := by
  intro l
  induction l with
  | nil => intro u l' h; simp [alloc_unitno] at h
  | cons b rest ih =>
    intro u l' h
    cases b with
    | false =>
      simp [alloc_unitno] at h
      obtain ⟨rfl, rfl⟩ := h
      exact ⟨le_refl 1, rfl, fun j hj => absurd hj (by omega), rfl⟩
    | true =>
      cases heq : alloc_unitno rest with
      | none => simp [alloc_unitno, heq] at h
      | some p =>
        obtain ⟨u0, rest0⟩ := p
        simp [alloc_unitno, heq] at h
        obtain ⟨rfl, rfl⟩ := h
        obtain ⟨h1, h2, h3, h4⟩ := ih u0 rest0 heq
        obtain ⟨k, rfl⟩ : ∃ k, u0 = k + 1 := ⟨u0 - 1, by omega⟩
        refine ⟨by omega, ?_, ?_, ?_⟩
        · simpa using h2
        · intro j hj
          cases j with
          | zero => simp
          | succ m =>
            have : m < k := by omega
            simpa using h3 m (by simpa using this)
        · simpa using h4

/-- Helper: `__open` does nothing when the session is already open. -/
theorem open_conn_noop (w : World) (env : OpenEnv) (h : w.isopen = true) :
    open_conn w env = (w, none, []) := by
  simp [open_conn, h]

/-- Helper: the read loop consumes every full 256-byte chunk, then the first
short chunk, concatenating them in order, and stops there. -/
theorem readLoop_full : ∀ (full : List (Int × List Nat)) (last : Int × List Nat)
    (extra : List (Int × List Nat)),
    (∀ p ∈ full, raise_ok p.1 = true ∧ p.2.length = 256) →
    raise_ok last.1 = true → last.2.length < 256 →
    readLoop (full ++ last :: extra)
      = ((full.map Prod.snd).flatten ++ last.2, ReadEnd.done) := by
  intro full
  induction full with
  | nil =>
    intro last extra _ hok hshort
    obtain ⟨e, d⟩ := last
    simp [readLoop, hok, hshort]
  | cons p ps ih =>
    intro last extra hfull hok hshort
    obtain ⟨e, d⟩ := p
    have h1 := hfull (e, d) (by simp)
    have h2 : ∀ q ∈ ps, raise_ok q.1 = true ∧ q.2.length = 256 :=
      fun q hq => hfull q (by simp [hq])
    have hlen : ¬ d.length < 256 := by
      have := h1.2
      simp at this
      omega
    have hrec := ih last extra h2 hok hshort
    simp [readLoop, h1.1, hlen, hrec]

/-- C1: a status of 0 or strictly positive is classified as success and
raises nothing; a negative status raises an exception carrying the target
address, the unsigned 32-bit lowercase-hex rendering of the code, and the
message looked up in the fixed table, defaulting to the source's literal
"Unkown error" when the hex code is absent. -/
theorem raise_error_taxonomy (w : World) (errcd : Int) :
    (raise_ok errcd = true ↔ errcd = 0 ∨ 1 ≤ errcd)
    ∧ (raise_ok errcd = false ↔ errcd < 0)
    ∧ (raise_ok errcd = true → raise_error w errcd = (w, none))
    ∧ (raise_ok errcd = false →
        (raise_error w errcd).2 = some (PyErr.remote w.ip (pyHex32 errcd)
          ((List.lookup (pyHex32 errcd) errmap).getD "Unkown error"))) := by
  refine ⟨?_, ?_, ?_, ?_⟩
  · simp [raise_ok]
  · simp [raise_ok]; omega
  · intro h; simp [raise_error, h]
  · intro h; simp [raise_error, h]

/-- C1 witness: the taxonomy applied at the concrete codes 5 (success) and
-3 (fatal, hex 0xfffffffd, absent from the table). -/
theorem raise_error_taxonomy_witness :
    raise_error ⟨"10.0.0.1", "683", List.replicate 255 false, true, some 1⟩ 5
      = (⟨"10.0.0.1", "683", List.replicate 255 false, true, some 1⟩, none)
    ∧ (raise_error ⟨"10.0.0.1", "683", List.replicate 255 false, true, some 1⟩ (-3)).2
      = some (PyErr.remote "10.0.0.1" (pyHex32 (-3))
          ((List.lookup (pyHex32 (-3)) errmap).getD "Unkown error")) := by
  constructor
  · exact (raise_error_taxonomy ⟨"10.0.0.1", "683", List.replicate 255 false, true, some 1⟩ 5).2.2.1
      (by decide)
  · exact (raise_error_taxonomy ⟨"10.0.0.1", "683", List.replicate 255 false, true, some 1⟩ (-3)).2.2.2
      (by decide)

/-- C1 counterexample: at status -2 (hex 0xfffffffe, absent from the table)
the raised message is the source's "Unkown error", which is not the claimed
"Unknown error". -/
theorem raise_error_default_spelling_cex :
    (raise_error ⟨"10.0.0.1", "683", List.replicate 255 false, true, some 1⟩ (-2)).2
      = some (PyErr.remote "10.0.0.1" "0xfffffffe" "Unkown error")
    ∧ (PyErr.remote "10.0.0.1" "0xfffffffe" "Unkown error"
        ≠ PyErr.remote "10.0.0.1" "0xfffffffe" "Unknown error") := by
  constructor
  · decide
  · decide

/-- C2: when a status code classifies as one of the two connection-lost codes
(hex 0x80a00101 or 0x8202000a), `__raise_error` runs the session's `close()`
path before the exception escapes, so the resulting state is Closed (with the
unit number released by `close`), and the exception is still raised. Stated
for sessions whose `__unitno` attribute is assigned, which holds for every
session that has entered `__open` (the only caller path that reaches
endpoint calls). -/
theorem connlost_closes_session (w : World) (u : Nat) (errcd : Int)
    (hu : w.unitno = some u) (hneg : raise_ok errcd = false)
    (hhex : pyHex32 errcd = "0x80a00101" ∨ pyHex32 errcd = "0x8202000a") :
    (raise_error w errcd).1.isopen = false
    ∧ (raise_error w errcd).1 = close w
    ∧ ∃ msg, (raise_error w errcd).2 = some (PyErr.remote w.ip (pyHex32 errcd) msg) := by
  rcases hhex with h | h <;>
    refine ⟨?_, ?_, ⟨(List.lookup (pyHex32 errcd) errmap).getD "Unkown error", ?_⟩⟩ <;>
    simp [raise_error, hneg, h, close, hu]

/-- C2 witness: the connection-lost code 0x80a00101 on an open session with
unit 1 leaves the session closed and raises. -/
theorem connlost_closes_session_witness :
    (raise_error ⟨"192.168.1.10", "683", (List.replicate 255 false).set 0 true, true, some 1⟩
        ((0x80a00101 : Int) - 4294967296)).1.isopen = false
    ∧ ∃ msg, (raise_error ⟨"192.168.1.10", "683", (List.replicate 255 false).set 0 true, true, some 1⟩
        ((0x80a00101 : Int) - 4294967296)).2
        = some (PyErr.remote "192.168.1.10" (pyHex32 ((0x80a00101 : Int) - 4294967296)) msg) := by
  have h := connlost_closes_session
    ⟨"192.168.1.10", "683", (List.replicate 255 false).set 0 true, true, some 1⟩ 1
    ((0x80a00101 : Int) - 4294967296) rfl (by decide) (Or.inl (by decide))
  exact ⟨h.1, h.2.2⟩

/-- C3: evidence for the code bug — from a closed session with an all-free
allocator, a successful `SetTCPIPProtocol` and an `Open2` failure with the
(non connection-lost) code 0x80a00104 leave the session not Open, yet unit
number 1 is still marked used when the exception propagates: the unit number
is not released, contradicting the claim. -/
theorem open2_failure_leaks_unitno :
    ((open_conn ⟨"10.0.0.1", "683", List.replicate 255 false, false, none⟩
        ⟨0, (0x80a00104 : Int) - 4294967296⟩).1.isopen = false)
    ∧ ((open_conn ⟨"10.0.0.1", "683", List.replicate 255 false, false, none⟩
        ⟨0, (0x80a00104 : Int) - 4294967296⟩).1.uno_list.get? 0 = some true)
    ∧ ((open_conn ⟨"10.0.0.1", "683", List.replicate 255 false, false, none⟩
        ⟨0, (0x80a00104 : Int) - 4294967296⟩).2.1
        = some (PyErr.remote "10.0.0.1" "0x80a00104" "Double Open Error")) := by
  refine ⟨?_, ?_, ?_⟩ <;> decide

/-- C4: `alloc_unitno` returns the lowest 1-based free slot and marks it
used; with all 255 slots used it fails; a full cycle of 255 allocations from
the fresh table succeeds and uses every slot (so the 256th fails);
`release_unitno u` clears slot `u`, and releasing an already-free slot is a
no-op. -/
theorem alloc_release_spec : ∀ (l : List Bool) (u : Nat) (l' : List Bool),
    (alloc_unitno l = some (u, l') →
      1 ≤ u ∧ l.get? (u - 1) = some false
        ∧ (∀ j, j < u - 1 → l.get? j = some true)
        ∧ l' = l.set (u - 1) true)
    ∧ alloc_unitno (List.replicate 255 true) = none
    ∧ allocSeq 255 (List.replicate 255 false) = some (List.replicate 255 true)
    ∧ (1 ≤ u → release_unitno l u = l.set (u - 1) false)
    ∧ (l.get? (u - 1) = some false → release_unitno l u = l) := by
  intro l u l'
  exact ⟨alloc_unitno_sound l u l', by decide, by decide, fun _ => rfl,
    fun h => list_set_get_eq l (u - 1) false h⟩

/-- C4 witness: the allocator facts applied at the concrete table
[true, false]: allocation returns 2 and marks the slot, release clears it,
and releasing the free slot 2 of [true, false] is a no-op. -/
theorem alloc_release_spec_witness :
    (1 ≤ 2 ∧ [true, false].get? 1 = some false
      ∧ (∀ j, j < 1 → [true, false].get? j = some true)
      ∧ [true, true] = [true, false].set 1 true)
    ∧ release_unitno [true, true] 2 = [true, true].set 1 false
    ∧ release_unitno [true, false] 2 = [true, false] := by
  refine ⟨(alloc_release_spec [true, false] 2 [true, true]).1 (by decide),
    (alloc_release_spec [true, true] 2 [true, true]).2.2.2.1 (by decide),
    (alloc_release_spec [true, false] 2 [true, true]).2.2.2.2 (by decide)⟩

/-- C5: evidence for the code bug — the substitution `find_dir` performs
before its first remote call does not produce the claimed two-digit
zero-padded uppercase hex form: because the source's replacement template
carries stray spaces (a space before the field and a space sign option in
the format specification), unit 1 turns "M01" into "M  1" and unit 26 turns
it into "M  1A", while the claim (modelled by `find_dir_subst_spec`) expects
"M01" and "M1A". -/
theorem find_dir_subst_mangled :
    find_dir_subst "M01:\\PRG\\USER\\100" 1 = "M  1:\\PRG\\USER\\100"
    ∧ find_dir_subst_spec "M01:\\PRG\\USER\\100" 1 = "M01:\\PRG\\USER\\100"
    ∧ find_dir_subst "M01:\\PRG\\USER\\100" 26 = "M  1A:\\PRG\\USER\\100"
    ∧ find_dir_subst_spec "M01:\\PRG\\USER\\100" 26 = "M1A:\\PRG\\USER\\100"
    ∧ find_dir_subst "M01:\\PRG\\USER\\100" 1
        ≠ find_dir_subst_spec "M01:\\PRG\\USER\\100" 1 := by
  refine ⟨?_, ?_, ?_, ?_, ?_⟩ <;> decide

/-- C6: evidence for the code bug — for the device "X10", whose first
character is neither M nor D, `__setting_dev` raises nothing (the
`Exception` is built but never raised) and still issues `Device_SetDevice`,
with the default `data_type = 0`, contradicting the claim that the operation
fails with an unsupported-device error before the remote call. -/
theorem setting_dev_unsupported_proceeds :
    setting_dev ⟨"10.0.0.1", "683", (List.replicate 255 false).set 0 true, true, some 1⟩
        "X10" 0 0
      = (⟨"10.0.0.1", "683", (List.replicate 255 false).set 0 true, true, some 1⟩, none,
         { dev := "X10", data_type := 0, value := 0 })
    ∧ "X10".front ≠ 'M' ∧ "X10".front ≠ 'D' := by
  refine ⟨?_, ?_, ?_⟩ <;> decide

/-- C7: the amended loop boundary of the `find_dir` passes — an entry is
appended and the next entry requested exactly while the most recent status
code is strictly greater than 1; the pass ends normally at the first code
that is at most 1 (so the strictly positive code 1 does terminate it), and a
negative code from the next-entry call ends the pass exceptionally. -/
theorem dirLoop_boundary : ∀ (e : Int) (i : String) (e' : Int) (i' : String)
    (rest : List (Int × String)),
    (e ≤ 1 → dirLoop e i rest = ([], PassEnd.normal e))
    ∧ (1 < e → dirLoop e i [] = ([i], PassEnd.exhausted))
    ∧ (1 < e → raise_ok e' = true →
        dirLoop e i ((e', i') :: rest)
          = (i :: (dirLoop e' i' rest).1, (dirLoop e' i' rest).2))
    ∧ (1 < e → raise_ok e' = false →
        dirLoop e i ((e', i') :: rest) = ([i], PassEnd.error e')) := by
  intro e i e' i' rest
  refine ⟨?_, ?_, ?_, ?_⟩
  · intro h
    have hne : ¬ 1 < e := by omega
    cases rest with
    | nil => simp [dirLoop, hne]
    | cons p ps =>
      obtain ⟨a, b⟩ := p
      simp [dirLoop, hne]
  · intro h
    simp [dirLoop, h]
  · intro h h'
    simp [dirLoop, h, h']
  · intro h h'
    simp [dirLoop, h, h']

/-- C7 witness: the boundary applied at a concrete pass — find-first returns
code 2 (one entry appended), find-next returns code 1, and the pass ends
normally with exactly one entry. -/
theorem dirLoop_boundary_witness :
    dirLoop 2 "x" [(1, "y")] = (["x"], PassEnd.normal 1) := by
  have h3 := (dirLoop_boundary 2 "x" 1 "y" []).2.2.1 (by decide) (by decide)
  have h1 := (dirLoop_boundary 1 "y" 0 "" []).1 (by decide)
  rw [h3, h1]

/-- C7 counterexample: the status code 1 is strictly positive, yet the pass
terminates at it immediately, appending nothing — so it is not the case that
the loop continues exactly while the code is strictly positive. -/
theorem dirPass_positive_one_terminates :
    ((0 : Int) < 1 ∧ raise_ok 1 = true)
    ∧ dirPass (1, "A") [] = ([], PassEnd.normal 1) := by
  constructor
  · decide
  · decide

/-- C8: the read result is independent of whether the final close attempt
fails; the close is attempted on every path; and for a stream of full
256-byte chunks followed by a short (or empty) chunk — in particular a file
whose size is an exact multiple of 256, for which that trailing chunk is the
extra short read — the loop consumes every full chunk and the short one,
returns their concatenation in order, and stops exactly there. -/
theorem read_file_spec : ∀ (o : Int) (chunks full extra : List (Int × List Nat))
    (last : Int × List Nat) (cf cf' : Bool),
    read_file o chunks cf = read_file o chunks cf'
    ∧ (read_file o chunks cf).2 = true
    ∧ (raise_ok o = true →
        (∀ p ∈ full, raise_ok p.1 = true ∧ p.2.length = 256) →
        raise_ok last.1 = true → last.2.length < 256 →
        read_file o (full ++ last :: extra) cf
          = (((full.map Prod.snd).flatten ++ last.2, ReadEnd.done), true)) := by
  intro o chunks full extra last cf cf'
  refine ⟨rfl, ?_, ?_⟩
  · simp only [read_file]
    split <;> rfl
  · intro ho hfull hok hshort
    simp [read_file, ho, readLoop_full full last extra hfull hok hshort]

/-- C8 witness: one full 256-byte chunk, then an empty chunk (exact-multiple
file), then an unread extra response: the result is the full chunk alone,
with the close attempted, independent of close failure. -/
theorem read_file_spec_witness :
    read_file 0 [(0, List.replicate 256 7), (0, ([] : List Nat)), (0, [5])] false
      = ((List.replicate 256 7, ReadEnd.done), true) := by
  have h := (read_file_spec 0 [] [(0, List.replicate 256 7)] [(0, [5])]
      (0, ([] : List Nat)) false true).2.2 (by decide) (by decide) (by decide) (by decide)
  simpa using h

/-- C9: `__open` is idempotent — on a session already Open it performs no
endpoint calls, raises nothing, and leaves the whole state (allocator table
included) unchanged. -/
theorem open_conn_idempotent (w : World) (env : OpenEnv) (h : w.isopen = true) :
    open_conn w env = (w, none, []) :=
  open_conn_noop w env h

/-- C9 witness: idempotence at a concrete open session holding unit 1. -/
theorem open_conn_idempotent_witness :
    open_conn ⟨"10.0.0.1", "683", (List.replicate 255 false).set 0 true, true, some 1⟩ ⟨0, 0⟩
      = (⟨"10.0.0.1", "683", (List.replicate 255 false).set 0 true, true, some 1⟩, none, []) :=
  open_conn_idempotent
    ⟨"10.0.0.1", "683", (List.replicate 255 false).set 0 true, true, some 1⟩ ⟨0, 0⟩ rfl

/-- C10: whenever `__open` succeeds and the first `Tool_SetOffset` (kind 0,
length compensation) reports success, `set_tool_offset_h` never returns
normally: evaluating the unbound name `d` raises a `NameError` after the
length-offset write was already issued, and the kind-2 (diameter) call is
never dispatched. -/
theorem set_tool_offset_h_nameerror : ∀ (w w' : World) (env : OpenEnv)
    (cs : List Call) (st1 : Int),
    open_conn w env = (w', none, cs) → raise_ok st1 = true →
    set_tool_offset_h w env st1
      = (w', some (PyErr.nameError "d"), cs ++ [Call.toolSetOffset 0]) := by
  intro w w' env cs st1 hopen hok
  simp [set_tool_offset_h, hopen, raise_error, hok]

/-- C10 witness: on an already-open session with a successful first write,
the call raises the NameError for "d" and issued only the kind-0 write. -/
theorem set_tool_offset_h_nameerror_witness :
    set_tool_offset_h ⟨"10.0.0.1", "683", (List.replicate 255 false).set 0 true, true, some 1⟩
        ⟨0, 0⟩ 0
      = (⟨"10.0.0.1", "683", (List.replicate 255 false).set 0 true, true, some 1⟩,
         some (PyErr.nameError "d"), [Call.toolSetOffset 0]) := by
  have h := set_tool_offset_h_nameerror
    ⟨"10.0.0.1", "683", (List.replicate 255 false).set 0 true, true, some 1⟩
    ⟨"10.0.0.1", "683", (List.replicate 255 false).set 0 true, true, some 1⟩
    ⟨0, 0⟩ [] 0 rfl (by decide)
  simpa using h

end M700
